import Mathlib

/-!
Shallow embedding of the query-routing, hybrid-retrieval and tiered-caching
core of the college-buddy repository, covering
`app/services/mcp_tools.py` (`TwoTierCache`, `CollegeMCPTools`),
`app/services/agent_mcp.py` (`SimplifiedMCPAgent`) and
`app/services/rag_system.py` (`RAGSystem.search`), together with the
`KNOWLEDGE_BASE` constant of `app/services/ultra_rag.py`.

Modelling conventions:
* Python strings are Lean `String`s; `in`, `startswith`, `replace`,
  `strip`, `lower`, `upper` and `split` are re-implemented below over
  character lists so every predicate is executable.
* Wall-clock time (`time.time()`) is an explicit `Int` parameter `now`
  (seconds); float scores are exact rationals `ℚ`.
* Network, SQL, the portal scrapers and the two ML models (sentence
  embedder + FAISS, BM25) are external collaborators per the spec; they
  appear as explicit oracle records whose fields are keyed by exactly the
  strings the source passes them.  A raised exception is `Except.error`.
* The optional translator / analytics / Ollama collaborators are absent
  (their initialisers fail gracefully in the source), which selects the
  deterministic fast paths of the agent.
-/

/-- Python `pre` being an initial segment of `s` (over character lists). -/
def hasLead : List Char → List Char → Bool
  | [], _ => true
  | _ :: _, [] => false
  | p :: ps, c :: cs => p == c && hasLead ps cs

/-- Python `pat in s` substring test over character lists: some suffix of `s`
starts with `pat` (the empty pattern is contained in every string). -/
def hasSub : List Char → List Char → Bool
  | [], pat => pat.isEmpty
  | c :: rest, pat => hasLead pat (c :: rest) || hasSub rest pat

/-- Python `pat in s` on strings. -/
def strContains (s pat : String) : Bool := hasSub s.toList pat.toList

/-- Python `s.startswith(pre)`. -/
def strStarts (s pre : String) : Bool := hasLead pre.toList s.toList

/-- Python `any(kw in s for kw in kws)`. -/
def containsAny (s : String) (kws : List String) : Bool :=
  kws.any (fun kw => strContains s kw)

/-- Fuelled worker for Python `s.replace(old, new)`: replace all
non-overlapping occurrences left to right.  The fuel is the length of `s`;
every step consumes at least one character, so the fuel never runs out at the
call site below.  (All call sites in the sources pass a non-empty `old`; the
empty-pattern case is not modelled.) -/
def replaceAllAux (old new : List Char) : Nat → List Char → List Char
  | _, [] => []
  | 0, s => s
  | fuel + 1, c :: rest =>
    if old.isEmpty then c :: rest
    else if hasLead old (c :: rest) then
      new ++ replaceAllAux old new fuel ((c :: rest).drop old.length)
    else c :: replaceAllAux old new fuel rest

/-- Python `s.replace(old, new)`. -/
def replaceAll (s old new : String) : String :=
  String.mk (replaceAllAux old.toList new.toList s.toList.length s.toList)

/-- Python/regex word characters (`\w`, ASCII): letters, digits, underscore. -/
def isWordChar (c : Char) : Bool := c.isAlphanum || c == '_'

/-- Fuelled worker for `re.sub(r'\b<w>\b', repl, s)` with a literal word `w`:
replace every occurrence of `w` that is delimited by word boundaries.  `prevW`
records whether the character preceding the current position in the original
string is a word character (regex scanning resumes in the original string
after each match, so replacement text is never rescanned). -/
def replaceWordAux (w repl : List Char) : Nat → Bool → List Char → List Char
  | _, _, [] => []
  | 0, _, s => s
  | fuel + 1, prevW, c :: rest =>
    if !prevW && !w.isEmpty && hasLead w (c :: rest)
        && (match (c :: rest).drop w.length with
            | [] => true
            | d :: _ => !isWordChar d) then
      repl ++ replaceWordAux w repl fuel true ((c :: rest).drop w.length)
    else c :: replaceWordAux w repl fuel (isWordChar c) rest

/-- `re.sub(r'\b<w>\b', repl, s)` for a literal word `w`. -/
def replaceWord (s w repl : String) : String :=
  String.mk (replaceWordAux w.toList repl.toList s.toList.length false s.toList)

/-- Python `s.lower()` (ASCII case mapping, which covers every string the
sources compare), built structurally so it evaluates by kernel reduction. -/
def pyLower (s : String) : String := String.mk (s.toList.map Char.toLower)

/-- Python `s.upper()` (ASCII case mapping). -/
def pyUpper (s : String) : String := String.mk (s.toList.map Char.toUpper)

/-- Python `s.strip()`: drop whitespace from both ends. -/
def pyStrip (s : String) : String :=
  String.mk (((s.toList.dropWhile Char.isWhitespace).reverse.dropWhile
    Char.isWhitespace).reverse)

/-- Worker for Python `s.split()`: split on whitespace runs, discarding empty
pieces; `acc` is the current word, reversed. -/
def pySplitAux : List Char → List Char → List (List Char)
  | [], acc => if acc.isEmpty then [] else [acc.reverse]
  | c :: rest, acc =>
    if c.isWhitespace then
      if acc.isEmpty then pySplitAux rest [] else acc.reverse :: pySplitAux rest []
    else pySplitAux rest (c :: acc)

/-- Python `s.split()`. -/
def pySplit (s : String) : List String := (pySplitAux s.toList []).map String.mk

namespace MCP

/-- `TwoTierCache` from `app/services/mcp_tools.py`: a static tier that never
expires and a dynamic tier whose entries carry the timestamp written by
`set_dynamic`.  Both tiers are association lists with at most one binding per
key (Python dict). -/
structure TwoTierCache (α : Type) where
  static_cache : List (String × α)
  dynamic_cache : List (String × α × Int)

/-- `TwoTierCache.get_static`. -/
def get_static {α : Type} (c : TwoTierCache α) (key : String) : Option α :=
  c.static_cache.lookup key

/-- `TwoTierCache.set_static`. -/
def set_static {α : Type} (c : TwoTierCache α) (key : String) (v : α) : TwoTierCache α :=
  { c with static_cache := (key, v) :: c.static_cache.filter (fun e => e.1 != key) }

/-- `TwoTierCache.get_dynamic` (mcp_tools.py lines 27-33): if the key is
present and `now - timestamp < ttl_seconds` return the stored value,
otherwise return `none`.  The source only reads the store. -/
def get_dynamic {α : Type} (c : TwoTierCache α) (now : Int) (key : String)
    (ttl_seconds : Int) : Option α :=
  match c.dynamic_cache.lookup key with
  | some (v, ts) => if now - ts < ttl_seconds then some v else none
  | none => none

/-- State-passing form of `get_dynamic`.  The source method performs no
mutation whatsoever (in particular no deletion of expired entries), so the
post-state returned here is the unchanged pre-state. -/
def get_dynamic_state {α : Type} (c : TwoTierCache α) (now : Int) (key : String)
    (ttl_seconds : Int) : Option α × TwoTierCache α :=
  (get_dynamic c now key ttl_seconds, c)

/-- `TwoTierCache.set_dynamic`: store the value with the current timestamp. -/
def set_dynamic {α : Type} (c : TwoTierCache α) (now : Int) (key : String) (v : α) :
    TwoTierCache α :=
  { c with dynamic_cache := (key, v, now) :: c.dynamic_cache.filter (fun e => e.1 != key) }

end MCP

/-- Claim C3: for a dynamic-tier entry with creation timestamp `t`, a read at
time `now` with time-to-live `ttl` returns the stored value exactly when the
age `now - t` is strictly below `ttl` and `none` once the age reaches `ttl`;
in particular age `ttl - 1` still returns the value and age `ttl` returns
`none`. -/
theorem C3_get_dynamic_ttl {α : Type} (c : MCP.TwoTierCache α) (now : Int) (key : String)
    (ttl : Int) (v : α) (t : Int) (h : c.dynamic_cache.lookup key = some (v, t)) :
    (now - t < ttl → MCP.get_dynamic c now key ttl = some v) ∧
    (ttl ≤ now - t → MCP.get_dynamic c now key ttl = none) ∧
    (now - t = ttl - 1 → MCP.get_dynamic c now key ttl = some v) ∧
    (now - t = ttl → MCP.get_dynamic c now key ttl = none) := by
  unfold MCP.get_dynamic
  rw [h]
  refine ⟨fun hlt => if_pos hlt, fun hge => if_neg (by omega), fun heq => if_pos (by omega),
    fun heq => if_neg (by omega)⟩

/-- Claim C3 witness: a concrete single-entry cache read at both boundary
ages. -/
theorem C3_witness :
    ((104 : Int) - 100 < 5 → MCP.get_dynamic
      (⟨[], [("k", "v", 100)]⟩ : MCP.TwoTierCache String) 104 "k" 5 = some "v") ∧
    ((5 : Int) ≤ 104 - 100 → MCP.get_dynamic
      (⟨[], [("k", "v", 100)]⟩ : MCP.TwoTierCache String) 104 "k" 5 = none) ∧
    ((104 : Int) - 100 = 5 - 1 → MCP.get_dynamic
      (⟨[], [("k", "v", 100)]⟩ : MCP.TwoTierCache String) 104 "k" 5 = some "v") ∧
    ((104 : Int) - 100 = 5 → MCP.get_dynamic
      (⟨[], [("k", "v", 100)]⟩ : MCP.TwoTierCache String) 104 "k" 5 = none) :=
  C3_get_dynamic_ttl (⟨[], [("k", "v", 100)]⟩ : MCP.TwoTierCache String) 104 "k" 5 "v" 100 rfl

/-- Claim C4 counterexample: reading an expired dynamic entry (age `10 ≥ 5`)
returns `none` but does NOT evict it — after the call the key is still bound
in the dynamic tier, contrary to the claim. -/
theorem C4_counterexample :
    (MCP.get_dynamic_state (⟨[], [("k", "v", 0)]⟩ : MCP.TwoTierCache String) 10 "k" 5).1
        = none ∧
    ((MCP.get_dynamic_state (⟨[], [("k", "v", 0)]⟩ : MCP.TwoTierCache String) 10 "k" 5).2
        ).dynamic_cache.lookup "k" = some ("v", 0) := by
  exact ⟨rfl, rfl⟩

/-- Claim C4 (amended): a read of an expired entry returns `none`, but no
eviction happens: the cache after the call is exactly the unchanged pre-state
and the expired entry is still bound in the dynamic tier. -/
theorem C4_no_evict {α : Type} (c : MCP.TwoTierCache α) (now : Int) (key : String)
    (ttl : Int) (v : α) (t : Int)
    (h : c.dynamic_cache.lookup key = some (v, t)) (hexp : ttl ≤ now - t) :
    MCP.get_dynamic_state c now key ttl = (none, c) ∧
    ((MCP.get_dynamic_state c now key ttl).2).dynamic_cache.lookup key = some (v, t) := by
  have hv : MCP.get_dynamic c now key ttl = none := by
    unfold MCP.get_dynamic
    rw [h]
    exact if_neg (by omega)
  exact ⟨by simp [MCP.get_dynamic_state, hv], by simpa [MCP.get_dynamic_state]⟩

/-- Claim C4 witness: the amended no-eviction theorem applied to a concrete
expired entry. -/
theorem C4_witness :
    MCP.get_dynamic_state (⟨[], [("k", "v", 0)]⟩ : MCP.TwoTierCache String) 99 "k" 60
      = (none, (⟨[], [("k", "v", 0)]⟩ : MCP.TwoTierCache String)) ∧
    ((MCP.get_dynamic_state (⟨[], [("k", "v", 0)]⟩ : MCP.TwoTierCache String) 99 "k" 60).2
        ).dynamic_cache.lookup "k" = some ("v", 0) :=
  C4_no_evict (⟨[], [("k", "v", 0)]⟩ : MCP.TwoTierCache String) 99 "k" 60 "v" 0 rfl
    (by norm_num)

namespace RAG

/-- A corpus chunk as read by `RAGSystem.search` (only the `text` field is
consulted). -/
structure Chunk where
  text : String

/-- External collaborators of `RAGSystem.search`: the sentence-embedding model
plus FAISS index (`self.index.search`, returning `(chunk index, L2 distance)`
pairs for the text it is asked to encode, in rank order) and the BM25 keyword
index (`self.bm25.get_scores` over the tokenized query).  Both are built
offline from the corpus and are read-only collaborators per the spec. -/
structure RagIndex where
  chunks : List Chunk
  faiss : String → Nat → List (Nat × ℚ)
  bm25 : List String → Nat → ℚ

/-- The abbreviation table of `RAGSystem._expand_abbreviations`
(rag_system.py lines 215-244), in source order. -/
def abbreviationTable : List (String × String) := [
  ("hod", "head of department head department HOD"),
  ("heads", "head of department head department"),
  ("dept", "department"),
  ("cs", "computer science"),
  ("cse", "computer science and engineering cse head CSE department"),
  ("csm", "CSE AIML artificial intelligence machine learning CSM department head"),
  ("csd", "CSE DS data science CSD department head"),
  ("ece", "electronics and communication engineering ece head ECE department"),
  ("eee", "electrical and electronics engineering eee head EEE department"),
  ("it", "information technology it head IT department"),
  ("mech", "mechanical engineering mech head MECH department"),
  ("ce", "civil engineering ce head CE department"),
  ("ba", "bachelor of arts"),
  ("ma", "master of arts"),
  ("tech", "bachelor of technology"),
  ("mtech", "master of technology"),
  ("phd", "doctor of philosophy"),
  ("sgpa", "semester grade point average"),
  ("cgpa", "cumulative grade point average"),
  ("fees", "fee"),
  ("prof", "professor faculty Dr."),
  ("dr", "doctor professor Dr."),
  ("info", "information"),
  ("pls", "please"),
  ("updates", "update"),
  ("timing", "timings schedule"),
  ("principal", "principal director Dr."),
  ("rector", "rector principal director")]

/-- `RAGSystem._expand_abbreviations`: lower the query, then apply each
word-boundary substitution of the table in order. -/
def expand_abbreviations (query : String) : String :=
  abbreviationTable.foldl (fun acc p => replaceWord acc p.1 p.2) (pyLower query)

/-- `RAGSystem._expand_query_with_gemma`: the abbreviation-expanded base
variant plus string-rewritten variants for who-is / how-to phrasings. -/
def expand_query_with_gemma (query : String) : List String :=
  let variants := [expand_abbreviations query]
  let ql := pyLower query
  let variants :=
    if strContains ql "who is" || strContains ql "who are" then
      variants ++ [replaceAll (replaceAll query "who is" "tell me about") "who are" "tell me about"]
    else variants
  if strContains ql "how to" then
    variants ++ [replaceAll (replaceAll query "how to" "process of") "how to" "procedure for"]
  else variants

/-- Person-query heuristic of `RAGSystem.search` (lines 301-302). -/
def personKeywords : List String :=
  ["who", "principal", "director", "hod", "dean", "registrar", "founder", "name",
   "head", "prof", "professor", "dr", "madam", "sir"]

/-- `is_person_query = any(kw in query.lower() for kw in person_keywords)`. -/
def isPersonQuery (query : String) : Bool := containsAny (pyLower query) personKeywords

/-- The navigation-artifact exclusion (lines 321-322 and repeats): text in
which the two literal menu fragments co-occur is skipped outright. -/
def navArtifact (text : String) : Bool :=
  strContains text "About Vision" && strContains text "Organogram"

/-- Number of occurrences of a character (Python `text.count(c)` for a single
character). -/
def countChar (s : List Char) (c : Char) : Nat := s.countP (fun d => d == c)

/-- Priority adjustment of the main semantic pass (lines 325-340), following
the source statement for statement: additive boosts for person indicators, an
overriding penalty for generic contact fragments, and a menu/table penalty. -/
def personBoostMain (isPerson : Bool) (text : String) : ℚ :=
  if isPerson then
    let b1 : ℚ := if strContains text "Dr." || strContains text "Prof." then 2 else 0
    let b2 := if strContains text "Head" && strContains text "Department" then b1 + 3/2 else b1
    let b3 := if strContains text "Principal" && decide (text.length > 100) then b2 + 3/2 else b2
    let b4 := if strContains text "Dean" || strContains text "Vice Principal" then b3 + 1 else b3
    let b5 := if strContains (pyLower text) "emergency"
        || (strContains (pyLower text) "contact" && decide (text.length < 100)) then (-2 : ℚ) else b4
    if countChar text.toList '|' > 3 then b5 - 1/2 else b5
  else 0

/-- Priority adjustment of the variant retrieval pass (lines 363-369): an
assignment to `1` for person indicators, overridden by `-0.5` for
emergency/contact text. -/
def personBoostVariant (isPerson : Bool) (text : String) : ℚ :=
  if isPerson then
    let b1 : ℚ := if strContains text "Dr." || strContains text "Prof."
        || strContains text "Principal" then 1 else 0
    if strContains (pyLower text) "emergency" || strContains (pyLower text) "contact" then
      -(1/2) else b1
  else 0

/-- One candidate row of `semantic_results` / `keyword_results`: the chunk,
its index, and the two retrieval scores (a score that was never set is `0`,
matching the source's `result.get(..., 0.0)` defaults). -/
structure PreEntry where
  idx : Nat
  doc : Chunk
  semantic_score : ℚ
  keyword_score : ℚ

/-- Python dict assignment `d[idx] = e` on an insertion-ordered association
list keyed by `idx`. -/
def upsertEntry (l : List PreEntry) (e : PreEntry) : List PreEntry :=
  if l.any (fun x => x.idx == e.idx) then
    l.map (fun x => if x.idx == e.idx then e else x)
  else l ++ [e]

/-- Main semantic pass (lines 315-347): walk the FAISS result pairs, guard
`idx < len(chunks)`, strip the text, skip navigation artifacts, and store
`1/(1+distance) + priority_boost` (L2 distances are non-negative, so the
denominator never vanishes).  The unused `rank` field is omitted. -/
def semanticPass (index : RagIndex) (isPerson : Bool) (pairs : List (Nat × ℚ)) :
    List PreEntry :=
  pairs.foldl (fun acc p =>
    match index.chunks.get? p.1 with
    | none => acc
    | some ch =>
      let t := pyStrip ch.text
      if navArtifact t then acc
      else upsertEntry acc
        { idx := p.1, doc := ch,
          semantic_score := 1 / (1 + p.2) + personBoostMain isPerson t,
          keyword_score := 0 }) []

/-- Variant retrieval pass (lines 350-375): only indices not already present
are added, with the variant boost. -/
def variantPass (index : RagIndex) (isPerson : Bool) (acc0 : List PreEntry)
    (pairs : List (Nat × ℚ)) : List PreEntry :=
  pairs.foldl (fun acc p =>
    match index.chunks.get? p.1 with
    | none => acc
    | some ch =>
      if acc.any (fun x => x.idx == p.1) then acc
      else
        let t := pyStrip ch.text
        if navArtifact t then acc
        else acc ++
          [{ idx := p.1, doc := ch,
             semantic_score := 1 / (1 + p.2) + personBoostVariant isPerson t,
             keyword_score := 0 }]) acc0

/-- BM25 keyword pass (lines 377-403): for every corpus index with a positive
score, double the score for person-relevant text on person queries, then
either attach it to the existing semantic entry or append a keyword-only
entry with zero semantic score. -/
def bm25Pass (index : RagIndex) (isPerson : Bool) (tokens : List String)
    (sem : List PreEntry) : List PreEntry × List PreEntry :=
  (List.range index.chunks.length).foldl (fun acc idx =>
    let score := index.bm25 tokens idx
    if score > 0 then
      match index.chunks.get? idx with
      | none => acc
      | some ch =>
        let t := pyStrip ch.text
        if navArtifact t then acc
        else
          let boosted := if isPerson && (strContains t "Dr." || strContains t "Prof.") then
              score * 2 else score
          if acc.1.any (fun x => x.idx == idx) then
            (acc.1.map (fun x => if x.idx == idx then { x with keyword_score := boosted } else x),
             acc.2)
          else
            (acc.1, acc.2 ++ [{ idx := idx, doc := ch, semantic_score := 0,
                                keyword_score := boosted }])
    else acc) (sem, [])

/-- Score fusion of `RAGSystem.search` (lines 416-419):
`hybrid = 0.6*semantic + 0.4*min(keyword/10, 1.0)`, as exact rationals
(`min(a, b)` written out as its conditional so that it evaluates by kernel
reduction). -/
def fuse (semantic_score keyword_score : ℚ) : ℚ :=
  6/10 * semantic_score +
    4/10 * (if keyword_score / 10 ≤ 1 then keyword_score / 10 else 1)

/-- A fused candidate row of `combined_results`. -/
structure ScoredEntry where
  idx : Nat
  doc : Chunk
  semantic_score : ℚ
  keyword_score : ℚ
  hybrid_score : ℚ

/-- Descending order on fused scores, the sort key of line 429
(`sorted(..., reverse=True)`). -/
def scoreGE (a b : ScoredEntry) : Prop := b.hybrid_score ≤ a.hybrid_score

instance : DecidableRel scoreGE :=
  fun a b => inferInstanceAs (Decidable (b.hybrid_score ≤ a.hybrid_score))

instance : IsTotal ScoredEntry scoreGE := ⟨fun a b => le_total b.hybrid_score a.hybrid_score⟩

instance : IsTrans ScoredEntry scoreGE := ⟨fun _ _ _ hab hbc => le_trans hbc hab⟩

/-- The effective retrieval/truncation count: the source widens `k` in place
(`k = min(k + 15, len(self.chunks))`) for person queries, and the widened
value is also what the final `[:k]` slice uses. -/
def effectiveK (index : RagIndex) (query : String) (k : Nat) : Nat :=
  if isPersonQuery query then min (k + 15) index.chunks.length else k

/-- `RAGSystem.search` (rag_system.py lines 295-430) up to the final
projection to bare documents: query expansion, person-query widening of `k`,
the FAISS pass, the variant passes, the BM25 pass, dict merge
(`{**semantic_results, **keyword_results}` — key sets are disjoint by
construction, so this is concatenation), score fusion, the descending sort
and the top-`k` slice, with the scores kept attached. -/
def searchEntries (index : RagIndex) (query : String) (k : Nat) : List ScoredEntry :=
  let expanded := expand_abbreviations query
  let variants := expand_query_with_gemma query
  let isPerson := isPersonQuery query
  let k1 := effectiveK index query k
  let sem0 := semanticPass index isPerson (index.faiss expanded (min k1 index.chunks.length))
  let sem1 := (variants.drop 1).foldl
      (fun acc v => variantPass index isPerson acc (index.faiss v (min k1 index.chunks.length)))
      sem0
  let tokens := pySplit (pyLower expanded)
  let merged := (bm25Pass index isPerson tokens sem1).1 ++ (bm25Pass index isPerson tokens sem1).2
  let fused := merged.map (fun e =>
    { idx := e.idx, doc := e.doc, semantic_score := e.semantic_score,
      keyword_score := e.keyword_score,
      hybrid_score := fuse e.semantic_score e.keyword_score })
  (List.insertionSort scoreGE fused).take k1

/-- `RAGSystem.search`: the source returns `result['doc']` for each sorted
row. -/
def search (index : RagIndex) (query : String) (k : Nat) : List Chunk :=
  (searchEntries index query k).map (fun e => e.doc)

end RAG

/-- Claim C5: the fusion function is monotone — increasing the semantic score
or the keyword score (or both) never decreases the fused score. -/
theorem C5_fuse_monotone (s s' kw kw' : ℚ) (hs : s ≤ s') (hk : kw ≤ kw') :
    RAG.fuse s kw ≤ RAG.fuse s' kw' := by
  unfold RAG.fuse
  have hd : kw / 10 ≤ kw' / 10 := by linarith
  have hmin : (if kw / 10 ≤ 1 then kw / 10 else (1:ℚ))
      ≤ (if kw' / 10 ≤ 1 then kw' / 10 else (1:ℚ)) := by
    split_ifs <;> linarith
  have h1 := mul_le_mul_of_nonneg_left hs (by norm_num : (0:ℚ) ≤ 6/10)
  have h2 := mul_le_mul_of_nonneg_left hmin (by norm_num : (0:ℚ) ≤ 4/10)
  linarith

/-- Claim C5 witness: monotonicity at a concrete pair of score vectors. -/
theorem C5_witness : RAG.fuse 1 2 ≤ RAG.fuse 2 3 :=
  C5_fuse_monotone 1 2 2 3 (by norm_num) (by norm_num)

/-- The concrete one-chunk index used to refute the literal reading of claim
C2: a single chunk, an empty FAISS answer, and a positive BM25 score for
index 0. -/
def C2index : RAG.RagIndex :=
  { chunks := [{ text := "a" }],
    faiss := fun _ _ => [],
    bm25 := fun _ i => if i = 0 then 1 else 0 }

/-- Claim C2 counterexample: `"who"` is a person query, so `k` is widened from
`0` to `min(0+15, 1) = 1` and the final slice uses the widened value — the
search returns 1 document although only `k = 0` were requested. -/
theorem C2_counterexample : ¬ ((RAG.search C2index "who" 0).length ≤ 0) := by decide

/-- Claim C2 (amended): `search` returns at most `k` documents for non-person
queries, but for person queries the bound is the widened count
`min (k+15, numChunks)` (which the final truncation also uses); in all cases
the scored result sequence is sorted by non-increasing fused score. -/
theorem C2_search_bounded_sorted (index : RAG.RagIndex) (query : String) (k : Nat) :
    (RAG.search index query k).length ≤ RAG.effectiveK index query k ∧
    List.Sorted RAG.scoreGE (RAG.searchEntries index query k) := by
  constructor
  · have h : (RAG.searchEntries index query k).length ≤ RAG.effectiveK index query k := by
      unfold RAG.searchEntries
      simp only [List.length_take]
      exact min_le_left _ _
    simpa [RAG.search] using h
  · unfold RAG.searchEntries
    exact List.Pairwise.sublist (List.take_sublist _ _) (List.sorted_insertionSort _ _)

namespace MCP

/-- The `personnel` table of `KNOWLEDGE_BASE` (`app/services/ultra_rag.py`). -/
structure KBPersonnel where
  principal : String
  vice_principal : String
  secretary : String
  chairman : String
  hod : List (String × String)

/-- The `timings` table of `KNOWLEDGE_BASE`. -/
structure KBTimings where
  working_hours : String
  lunch_break : String

/-- The `history` table of `KNOWLEDGE_BASE`. -/
structure KBHistory where
  established : String
  founder : String
  affiliation : String
  location : String
  campus_size : String

/-- The `courses` table of `KNOWLEDGE_BASE`. -/
structure KBCourses where
  ug : List String
  pg : List String
  total : String

/-- The `facilities` table of `KNOWLEDGE_BASE`. -/
structure KBFacilities where
  main : String
  special : String

/-- The `accreditation` table of `KNOWLEDGE_BASE`. -/
structure KBAccreditation where
  naac : String
  nba : String
  approvals : String

/-- The `scholarships` table of `KNOWLEDGE_BASE`. -/
structure KBScholarships where
  types : List String
  merit : String
  fee_reimbursement : String
  central_schemes : String
  contact : String
  application : String

/-- The `fees` table of `KNOWLEDGE_BASE`. -/
structure KBFees where
  btech_annual : String
  mtech_annual : String
  mba_annual : String
  hostel : String
  transport : String
  note : String

/-- The `events` table of `KNOWLEDGE_BASE`. -/
structure KBEvents where
  tech_fest : String
  cultural_fest : String
  sports_day : String
  hackathons : String
  workshops : String
  clubs : String

/-- The `exam_schedule` table of `KNOWLEDGE_BASE`. -/
structure KBExams where
  mid_term_1 : String
  mid_term_2 : String
  semester_end : String
  internal_marks : String
  note : String

/-- The `library` table of `KNOWLEDGE_BASE`. -/
structure KBLibrary where
  name : String
  collection : String
  timings : String
  facilities : String
  membership : String

/-- The knowledge base, with the tables `check_static_facts` reads (the
`admissions` table is never consulted by the core and is omitted). -/
structure KB where
  personnel : KBPersonnel
  timings : KBTimings
  history : KBHistory
  courses : KBCourses
  facilities : KBFacilities
  accreditation : KBAccreditation
  scholarships : KBScholarships
  fees : KBFees
  events : KBEvents
  exam_schedule : KBExams
  library : KBLibrary

/-- The `KNOWLEDGE_BASE` constant of `app/services/ultra_rag.py`. -/
def KNOWLEDGE_BASE : KB where
  personnel :=
    { principal := "Dr. D. V. Ravi Shankar"
      vice_principal := "Dr. A. Suresh Rao (also HoD of CSE & Dean Academics)"
      secretary := "Dr. T. Harinath Reddy"
      chairman := "Sri. Teegala Krishna Reddy"
      hod := [("cse", "Dr. A. Suresh Rao"), ("cse-aiml", "Dr. B. Sunil Srinivas"),
        ("csm", "Dr. B. Sunil Srinivas"), ("cse-ds", "Dr. V. Krishna"),
        ("csd", "Dr. V. Krishna"), ("ece", "Dr. D. Nageshwar Rao"),
        ("eee", "Dr. K. Raju"), ("it", "Dr. R. Muruanantham"),
        ("mech", "Mr. D. Rushi Kumar"), ("civil", "Mr. K.V.R Satya Sai"),
        ("mba", "Dr. K. Gyaneswari")] }
  timings :=
    { working_hours := "9:40 AM to 4:20 PM (Monday-Saturday)"
      lunch_break := "12:40 PM to 1:20 PM" }
  history :=
    { established := "2002"
      founder := "Sri. Teegala Krishna Reddy"
      affiliation := "JNTUH (Jawaharlal Nehru Technological University Hyderabad)"
      location := "Meerpet, Hyderabad - 500097, Telangana"
      campus_size := "20 acres" }
  courses :=
    { ug := ["CSE", "CSE-AIML", "CSE-DS", "ECE", "EEE", "IT", "Mechanical", "Civil"]
      pg := ["M.Tech in CSE", "M.Tech in Power Electronics", "MBA"]
      total := "8 UG programs and 3 PG programs" }
  facilities :=
    { main := "State-of-the-art labs, smart classrooms, Wi-Fi campus, digital library, hostel (boys & girls), transport, sports ground, auditorium, NCC, incubation center, and medical facilities."
      special := "Virtual labs, R&D center (21,000 sq ft), industry partnerships with ECIL and others." }
  accreditation :=
    { naac := "A+ Grade"
      nba := "NBA Accredited"
      approvals := "AICTE approved, UGC recognized 2(f) & 12(B)" }
  scholarships :=
    { types := ["Merit-based", "Need-based", "Sports quota", "SC/ST/OBC", "Minority scholarships"]
      merit := "Available for students with >85% in 12th or CGPA >8.5 in college"
      fee_reimbursement := "TS Government fee reimbursement scheme for eligible students (income criteria apply)"
      central_schemes := "Central sector scholarship, Post-matric scholarship for SC/ST/OBC students"
      contact := "Contact admissions office or visit https://tkrcet.ac.in/scholarships for details"
      application := "Apply through TS ePass portal for state scholarships" }
  fees :=
    { btech_annual := "₹75,000 - ₹85,000 per year (approx, varies by category)"
      mtech_annual := "₹60,000 - ₹70,000 per year (approx)"
      mba_annual := "₹50,000 - ₹60,000 per year (approx)"
      hostel := "₹40,000 - ₹50,000 per year (including mess)"
      transport := "₹15,000 - ₹25,000 per year (route-dependent)"
      note := "Fees vary by category (Management/Convener quota). Contact admissions for exact details: admissions@tkrcet.ac.in" }
  events :=
    { tech_fest := "Annual tech fest \x27TECHNOVA\x27 with coding competitions, robotics, hackathons, and technical workshops"
      cultural_fest := "Cultural fest \x27KALANJALI\x27 with music, dance, drama, and art competitions"
      sports_day := "Annual sports meet with inter-department cricket, football, volleyball, and athletics"
      hackathons := "Regular 24-hour coding hackathons and coding competitions"
      workshops := "Industry expert workshops on AI/ML, Cloud Computing, IoT, and emerging technologies"
      clubs := "Active IEEE, CSI, Coding Club, Robotics Club, and Literary Club" }
  exam_schedule :=
    { mid_term_1 := "Usually in September (Odd semester) / February (Even semester)"
      mid_term_2 := "Usually in November (Odd semester) / April (Even semester)"
      semester_end := "December (Odd semester) / May (Even semester)"
      internal_marks := "Based on mid-terms, assignments, and attendance"
      note := "Check college website or notice board for exact dates each semester" }
  library :=
    { name := "Central Library"
      collection := "50,000+ books, e-journals, IEEE digital library access"
      timings := "9:00 AM to 5:00 PM (Monday-Saturday)"
      facilities := "Digital library, reading rooms, e-resources, internet access"
      membership := "Free for all students and faculty" }

/-- Uniform tool-result shape (`{"success": ..., ...}` dicts of
`mcp_tools.py`): the `answer` / `notices` / `data` / `results` payload is
collapsed into the single string field `body`. -/
structure SimpleResult where
  success : Bool
  body : String := ""
  cached : Bool := false
  error : String := ""

/-- Branches of `check_static_facts` from the timings check onward
(mcp_tools.py lines 198-301), reached either directly or by falling through
an HOD mention with no matching department; `none` is the final
`{"success": False}` outcome. -/
def staticFactsTail (kb : KB) (ql : String) : Option String :=
  if strContains ql "timing" || strContains ql "hours" || strContains ql "time" then
    some ("College timings: " ++ kb.timings.working_hours ++ ". Lunch break: "
      ++ kb.timings.lunch_break ++ ".")
  else if strContains ql "location" || strContains ql "address" || strContains ql "where" then
    some ("TKRCET is located at " ++ kb.history.location ++ ".")
  else if strContains ql "established" || strContains ql "founded" || strContains ql "started" then
    some ("TKRCET was established in " ++ kb.history.established ++ " on a "
      ++ kb.history.campus_size ++ " campus.")
  else if strContains ql "course" || strContains ql "program" || strContains ql "branch"
      || strContains ql "dept" then
    some ("TKRCET offers " ++ kb.courses.total ++ ". UG Programs: "
      ++ String.intercalate ", " kb.courses.ug ++ ". PG Programs: "
      ++ String.intercalate ", " kb.courses.pg ++ ".")
  else if strContains ql "facilit" || strContains ql "infrastructure"
      || strContains ql "transport" || strContains ql "ground"
      || strContains ql "playground" || strContains ql "sports" then
    some (kb.facilities.main ++ " Special Features: " ++ kb.facilities.special)
  else if strContains ql "naac" || strContains ql "nba" || strContains ql "accredit" then
    some ("TKRCET is " ++ kb.accreditation.naac ++ " accredited, " ++ kb.accreditation.nba
      ++ ", and " ++ kb.accreditation.approvals ++ ".")
  else if strContains ql "food" || strContains ql "canteen" || strContains ql "mess"
      || strContains ql "cafeteria" then
    some "Yes, TKRCET has canteen facilities on campus providing food for students and staff. The college facilities include canteen services along with other amenities."
  else if containsAny ql ["about college", "tell about", "college life", "about tkrcet"] then
    some ("TKRCET (Teegala Krishna Reddy Engineering College) was established in "
      ++ kb.history.established ++ " at " ++ kb.history.location ++ ". It is affiliated to "
      ++ kb.history.affiliation ++ " and is " ++ kb.accreditation.naac
      ++ " accredited. The college offers " ++ kb.courses.total
      ++ " with excellent facilities including " ++ kb.facilities.main)
  else if strContains ql "scholarship" || strContains ql "financial aid" then
    some ("TKRCET offers various scholarships: "
      ++ String.intercalate ", " kb.scholarships.types ++ ". "
      ++ "Merit scholarship: " ++ kb.scholarships.merit ++ ". "
      ++ kb.scholarships.fee_reimbursement ++ ". "
      ++ "Apply through: " ++ kb.scholarships.application
      ++ ". Contact: " ++ kb.scholarships.contact)
  else if strContains ql "fee" || strContains ql "fees" || strContains ql "cost"
      || strContains ql "tuition" then
    some ("TKRCET Fee Structure (approximate): "
      ++ "B.Tech: " ++ kb.fees.btech_annual ++ ", "
      ++ "M.Tech: " ++ kb.fees.mtech_annual ++ ", "
      ++ "MBA: " ++ kb.fees.mba_annual ++ ". "
      ++ "Hostel: " ++ kb.fees.hostel ++ ", Transport: " ++ kb.fees.transport ++ ". "
      ++ "Note: " ++ kb.fees.note)
  else if strContains ql "event" || strContains ql "fest" || strContains ql "festival"
      || strContains ql "competition" then
    some ("TKRCET Events: "
      ++ "Tech Fest: " ++ kb.events.tech_fest ++ ". "
      ++ "Cultural Fest: " ++ kb.events.cultural_fest ++ ". "
      ++ "Sports: " ++ kb.events.sports_day ++ ". "
      ++ "Also: " ++ kb.events.hackathons ++ ", " ++ kb.events.workshops)
  else if strContains ql "exam" || strContains ql "test" || strContains ql "mid"
      || strContains ql "semester" then
    some ("Exam Schedule: "
      ++ "Mid-term 1: " ++ kb.exam_schedule.mid_term_1 ++ ", "
      ++ "Mid-term 2: " ++ kb.exam_schedule.mid_term_2 ++ ", "
      ++ "Semester End: " ++ kb.exam_schedule.semester_end ++ ". "
      ++ kb.exam_schedule.internal_marks ++ ". " ++ kb.exam_schedule.note)
  else if strContains ql "library" || strContains ql "book" then
    some (kb.library.name ++ ": " ++ kb.library.collection ++ ". "
      ++ "Timings: " ++ kb.library.timings ++ ". "
      ++ "Facilities: " ++ kb.library.facilities ++ ". " ++ kb.library.membership)
  else none

/-- The full answer computation of `check_static_facts` (mcp_tools.py lines
159-301): personnel branches, the HOD block (which falls through to the later
branches when the query mentions HODs but no known department), then the
tail. -/
def staticFactsAnswer (kb : KB) (ql : String) : Option String :=
  if (strContains ql "principal" || strContains ql "principle")
      && !strContains ql "vice" then
    some ("The Principal of TKRCET is " ++ kb.personnel.principal ++ ".")
  else if strContains ql "vice principal" then
    some ("The Vice Principal is " ++ kb.personnel.vice_principal ++ ".")
  else if strContains ql "secretary" then
    some ("The Secretary of TKRCET is " ++ kb.personnel.secretary ++ ".")
  else if strContains ql "chairman" then
    some ("The Chairman of TKRCET is " ++ kb.personnel.chairman ++ ".")
  else if strContains ql "founder" || strContains ql "founded by"
      || strContains ql "who started" then
    some ("TKRCET was founded by " ++ kb.history.founder ++ " in "
      ++ kb.history.established ++ ".")
  else if strContains ql "hod" || strContains ql "head of department" then
    let found := (kb.personnel.hod.filter (fun p => strContains ql p.1)).map
      (fun p => "The HOD of " ++ pyUpper p.1 ++ " is " ++ p.2)
    if !found.isEmpty then some (String.intercalate ". " found ++ ".")
    else staticFactsTail kb ql
  else staticFactsTail kb ql

/-- `CollegeMCPTools.check_static_facts` (mcp_tools.py lines 147-301): check
the static cache (Python truthiness: a stored empty string counts as a miss),
otherwise compute the answer, store it permanently under the lower-cased
query, and return it; misses return `success := false`. -/
def check_static_facts (kb : KB) (cache : TwoTierCache String) (query : String) :
    SimpleResult × TwoTierCache String :=
  let ql := pyLower query
  let hit := (get_static cache ql).getD ""
  if hit != "" then ({ success := true, body := hit, cached := true }, cache)
  else
    match staticFactsAnswer kb ql with
    | some a => ({ success := true, body := a, cached := false }, set_static cache ql a)
    | none => ({ success := false, error := "No static fact found for this query" }, cache)

/-- Mutable state of `CollegeMCPTools`: the shared two-tier cache, the stored
portal credential triple `(username, password, portal_type)` (`None` until a
login flow completes) and the portal preference. -/
structure ToolsState where
  cache : TwoTierCache String
  portal_credentials : Option (String × String × String)
  selected_portal : String

/-- External collaborators of the tools (network scraping, SQL, the portal
scrapers), modelled as pure oracles keyed by the strings the source passes
them; `Except.error` models a raised exception. -/
structure Oracles where
  noticesPage : Except String String
  placementsPage : Except String String
  sql : String → Except String String
  webSearch : String → Except String String
  portalLogin : String → String → String → Except String (Bool × String)
  portalFetch : String → String → String

/-- `CollegeMCPTools.scrape_latest_notices` (mcp_tools.py lines 303-344):
dynamic-cache wrapper (key `latest_notices`, TTL 3600 s) around the network
scrape; page fetching and HTML extraction are external (`noticesPage`). -/
def scrape_latest_notices (oc : Oracles) (now : Int) (st : ToolsState) :
    SimpleResult × ToolsState :=
  match get_dynamic st.cache now "latest_notices" 3600 with
  | some v => ({ success := true, body := v, cached := true }, st)
  | none =>
    match oc.noticesPage with
    | Except.error e => ({ success := false, error := e }, st)
    | Except.ok notices =>
      ({ success := true, body := notices, cached := false },
       { st with cache := set_dynamic st.cache now "latest_notices" notices })

/-- `CollegeMCPTools.query_database` (mcp_tools.py lines 397-425):
dynamic-cache wrapper (key `db_<lowered query>`, TTL 3600 s) around the
privacy-protected SQL aggregate query (`sql` oracle). -/
def query_database (oc : Oracles) (now : Int) (st : ToolsState) (query : String) :
    SimpleResult × ToolsState :=
  let cache_key := "db_" ++ pyLower query
  match get_dynamic st.cache now cache_key 3600 with
  | some v => ({ success := true, body := v, cached := true }, st)
  | none =>
    match oc.sql query with
    | Except.error e => ({ success := false, error := e }, st)
    | Except.ok r =>
      ({ success := true, body := r, cached := false },
       { st with cache := set_dynamic st.cache now cache_key r })

/-- `CollegeMCPTools.scrape_placements` (mcp_tools.py lines 346-395):
dynamic-cache wrapper (key `placements`, TTL 3600 s); a firewall signature in
the fetched text (`MalCare` / `Firewall` / `Blocked`) triggers the same-turn
fallback to `query_database("placement statistics")`, whose wrapped result is
not written to the `placements` cache entry. -/
def scrape_placements (oc : Oracles) (now : Int) (st : ToolsState) :
    SimpleResult × ToolsState :=
  match get_dynamic st.cache now "placements" 3600 with
  | some v => ({ success := true, body := v, cached := true }, st)
  | none =>
    match oc.placementsPage with
    | Except.error e => ({ success := false, error := e }, st)
    | Except.ok text =>
      if strContains text "MalCare" || strContains text "Firewall"
          || strContains text "Blocked" then
        let dbr := query_database oc now st "placement statistics"
        ({ success := true,
           body := if (dbr.1).success then (dbr.1).body else "No data",
           cached := false }, dbr.2)
      else
        ({ success := true, body := text, cached := false },
         { st with cache := set_dynamic st.cache now "placements" text })

/-- `CollegeMCPTools.search_website` (mcp_tools.py lines 427-563):
dynamic-cache wrapper (key `search_<lowered query>`, TTL 3600 s); the
multi-page crawl, keyword matching and result formatting are network-driven
and appear as the `webSearch` oracle. -/
def search_website (oc : Oracles) (now : Int) (st : ToolsState) (query : String) :
    SimpleResult × ToolsState :=
  let cache_key := "search_" ++ pyLower query
  match get_dynamic st.cache now cache_key 3600 with
  | some v => ({ success := true, body := v, cached := true }, st)
  | none =>
    match oc.webSearch query with
    | Except.error e => ({ success := false, error := e }, st)
    | Except.ok t =>
      ({ success := true, body := t, cached := false },
       { st with cache := set_dynamic st.cache now cache_key t })

/-- `CollegeMCPTools.query_student_portal` (mcp_tools.py lines 565-638):
portal selection (empty `portal_type` falls back to the stored preference),
the 300 s dynamic cache keyed by portal, upper-cased username and data type,
login through the scraper, fetch, and the login-failure result.  A raised
scraper exception (`Except.error`) is caught by the source's `except` block
and returned as `success := false`. -/
def query_student_portal (oc : Oracles) (now : Int) (st : ToolsState)
    (username password data_type portal_type : String) : SimpleResult × ToolsState :=
  let portal := if portal_type != "" then portal_type else st.selected_portal
  let title := if portal == "autonomous" then "Autonomous Portal" else "Regular Portal"
  let cache_key := "portal_" ++ portal ++ "_" ++ pyUpper username ++ "_" ++ data_type
  match get_dynamic st.cache now cache_key 300 with
  | some v => ({ success := true, body := v, cached := true }, st)
  | none =>
    match oc.portalLogin portal username password with
    | Except.error e => ({ success := false, error := e }, st)
    | Except.ok (ok, message) =>
      if !ok then
        ({ success := false, error := "Login failed (" ++ title ++ "): " ++ message }, st)
      else
        let data := oc.portalFetch portal data_type
        ({ success := true, body := data, cached := false },
         { st with cache := set_dynamic st.cache now cache_key data })

end MCP

namespace MCP

/-- The exact-match greeting list of `SimplifiedMCPAgent.__call__` (line 208). -/
def greetings : List String :=
  ["hi", "hello", "hey", "how are you", "how r u", "how are u", "whats up", "what\x27s up"]

/-- `any(g == query.lower() for g in greetings)`. -/
def isGreeting (query : String) : Bool := greetings.any (fun g => g == pyLower query)

/-- The obvious non-college topics of `SimplifiedMCPAgent._is_college_related`. -/
def nonCollegeKeywords : List String :=
  ["formula", "equation", "calculate", "solve", "math problem", "physics problem",
   "chemistry problem", "^2", "=", "x+y", "integral", "derivative", "theorem", "proof"]

/-- `SimplifiedMCPAgent._is_college_related` (agent_mcp.py lines 130-149):
reject only obvious math/science problems, unless the query also mentions the
college. -/
def is_college_related (query : String) : Bool :=
  let ql := pyLower query
  if containsAny ql nonCollegeKeywords then
    strContains ql "college" || strContains ql "tkrcet"
  else true

/-- The follow-up patterns of `_resolve_context`, in dict order. -/
def followTopics : List String := ["what about", "and", "also", "how about"]

/-- Topic-update section of `_resolve_context` (lines 118-127). -/
def topicUpdate (last_topic : Option String) (ql : String) : Option String :=
  if strContains ql "placement" || strContains ql "placed" then
    some "placement statistics for"
  else if strContains ql "admission" then some "admission information for"
  else if strContains ql "fee" then some "fee structure for"
  else if strContains ql "hod" then some "head of department for"
  else last_topic

/-- `SimplifiedMCPAgent._resolve_context` (agent_mcp.py lines 96-128): if the
lower-cased query starts with a follow-up pattern and a topic is remembered,
substitute the topic (`topic + " " + query_lower.replace(pattern, "").strip()`,
where `replace` removes every occurrence); otherwise update the remembered
topic from the query.  Returns the (possibly rewritten) query and the new
`last_topic`. -/
def resolve_context (last_topic : Option String) (query : String) :
    String × Option String :=
  let ql := pyLower query
  match last_topic with
  | some topic =>
    match followTopics.find? (fun p => strStarts ql p) with
    | some p => (topic ++ " " ++ pyStrip (replaceAll ql p ""), last_topic)
    | none => (query, topicUpdate last_topic ql)
  | none => (query, topicUpdate last_topic ql)

/-- The tools reachable from `_select_tool` / the dispatch of `__call__`. -/
inductive ToolName where
  | check_static_facts
  | scrape_latest_notices
  | scrape_placements
  | search_website
  | query_database
  | query_student_portal
deriving DecidableEq

/-- Freshness keywords (rule 2 of the router). -/
def freshKeywords : List String :=
  ["latest", "recent", "current", "new", "notice", "announcement"]

/-- Personal-portal keywords (rule 3 of the router). -/
def portalKeywords : List String :=
  ["my result", "my attendance", "login", "student portal", "dashboard", "my grade",
   "my mark"]

/-- Aggregate/statistical keywords routed to the database (rule 4). -/
def sqlKeywords : List String :=
  ["how many", "students placed", "placement rate", "placement statistics",
   "cgpa", "average", "top companies", "recruiters", "students in",
   "highest", "lowest", "package", "salary", "count", "number of",
   "total", "percent", "database", "db", "record"]

/-- Placement-domain keywords (rule 5). -/
def placementKeywords : List String :=
  ["placement", "placed", "company", "companies", "job"]

/-- The aggregate sub-check inside the placement branch. -/
def placementStatKeywords : List String := ["how many", "statistics", "rate", "percentage"]

/-- Trailing part of the roll-number regex after `\d{2}[kK]\d{2}`: the
greedy `[a-zA-Z0-9]+\b` succeeds exactly when the maximal following run of
word characters is non-empty and entirely alphanumeric. -/
def alnumRunBoundary : List Char → Bool
  | [] => true
  | c :: cs => if c.isAlphanum then alnumRunBoundary cs else !isWordChar c

/-- `[a-zA-Z0-9]+\b` at the head of the list. -/
def rollNumTail : List Char → Bool
  | c :: cs => c.isAlphanum && alnumRunBoundary cs
  | [] => false

/-- The body `\d{2}[kK]\d{2}[a-zA-Z0-9]+\b` matched at the head of the list. -/
def rollNumAt : List Char → Bool
  | d1 :: d2 :: kc :: d3 :: d4 :: rest =>
    d1.isDigit && d2.isDigit && (kc == 'k' || kc == 'K') && d3.isDigit && d4.isDigit &&
      rollNumTail rest
  | _ => false

/-- Scanner for `re.search`: try the pattern at every position whose
predecessor is not a word character (the leading `\b`). -/
def hasRollNumAux : Bool → List Char → Bool
  | _, [] => false
  | prevW, c :: rest => (!prevW && rollNumAt (c :: rest)) || hasRollNumAux (isWordChar c) rest

/-- `re.search(r'\b\d{2}[kK]\d{2}[a-zA-Z0-9]+\b', s)` as a boolean
(agent_mcp.py line 167). -/
def hasRollNum (s : String) : Bool := hasRollNumAux false s.toList

/-- `SimplifiedMCPAgent._select_tool` (agent_mcp.py lines 151-191): the
priority-ordered keyword router. -/
def select_tool (query : String) : ToolName :=
  let ql := pyLower query
  if containsAny ql freshKeywords then ToolName.scrape_latest_notices
  else if containsAny ql portalKeywords then ToolName.query_student_portal
  else if hasRollNum ql && (strContains ql "result" || strContains ql "mark") then
    ToolName.query_student_portal
  else if containsAny ql sqlKeywords then ToolName.query_database
  else if containsAny ql placementKeywords then
    if containsAny ql placementStatKeywords then ToolName.query_database
    else ToolName.scrape_placements
  else ToolName.check_static_facts

/-- Per-conversation agent state (`SimplifiedMCPAgent.__init__` lines 42-47):
the rolling history of the last 3 raw queries, the remembered topic, and the
login sub-state (`waiting_for_credential`, `temp_username`). -/
structure AgentState where
  conversation_history : List String
  last_topic : Option String
  waiting_for_credential : Bool
  temp_username : Option String

/-- One tool invocation issued by the agent during a turn (the trace records
the arguments the dispatch code passes). -/
inductive ToolCall where
  | static (query : String)
  | notices
  | placements
  | db (query : String)
  | search (query : String)
  | portal (username password data_type portal_type : String)
deriving DecidableEq

/-- The observable outcome of one agent turn: the response text, the new
agent state, the new tools state, and the trace of tool invocations. -/
structure AgentTurn where
  response : String
  agent : AgentState
  tools : ToolsState
  calls : List ToolCall

/-- `SimplifiedMCPAgent._format_response` with the Ollama collaborator absent
(`llm_available = false`, the source's fast path): failures map to the fixed
apology (line 345), successes return the raw data — the per-tool raw-data
assembly over scraped payloads is already collapsed into the `body` field of
`SimpleResult`. -/
def format_response (result : SimpleResult) : String :=
  if !result.success then
    "I couldn\x27t find specific information. Please try rephrasing your question or visit https://tkrcet.ac.in for more details."
  else result.body

/-- Tool dispatch section of `SimplifiedMCPAgent.__call__` (agent_mcp.py
lines 249-323): append the pre-resolution query to the rolling history
(popping the oldest entry past 3), select the tool for the routed query `q`,
and execute it — with the mandatory static→search fallback and the
credential gate of the portal branch. -/
def agent_route (oc : Oracles) (now : Int) (ast : AgentState) (tst : ToolsState)
    (original_query q : String) : AgentTurn :=
  let hist0 := ast.conversation_history ++ [original_query]
  let hist := if hist0.length > 3 then hist0.drop 1 else hist0
  let ast1 := { ast with conversation_history := hist }
  match select_tool q with
  | ToolName.check_static_facts =>
    let r := check_static_facts KNOWLEDGE_BASE tst.cache q
    if !(r.1).success then
      let r2 := search_website oc now { tst with cache := r.2 } q
      { response := format_response r2.1, agent := ast1, tools := r2.2,
        calls := [ToolCall.static q, ToolCall.search q] }
    else
      { response := format_response r.1, agent := ast1,
        tools := { tst with cache := r.2 }, calls := [ToolCall.static q] }
  | ToolName.scrape_latest_notices =>
    let r := scrape_latest_notices oc now tst
    { response := format_response r.1, agent := ast1, tools := r.2,
      calls := [ToolCall.notices] }
  | ToolName.scrape_placements =>
    let r := scrape_placements oc now tst
    { response := format_response r.1, agent := ast1, tools := r.2,
      calls := [ToolCall.placements] }
  | ToolName.query_database =>
    let r := query_database oc now tst q
    { response := format_response r.1, agent := ast1, tools := r.2,
      calls := [ToolCall.db q] }
  | ToolName.query_student_portal =>
    match tst.portal_credentials with
    | none =>
      { response := "To access your results from the Student Portal, I need your **Roll Number** (I\x27ll ask for your password next):",
        agent := { ast1 with waiting_for_credential := true }, tools := tst, calls := [] }
    | some (username, password, portal_type) =>
      let ql := pyLower q
      let data_type :=
        if strContains ql "result" || strContains ql "grade" || strContains ql "mark" then
          "results"
        else if strContains ql "dashboard" || strContains ql "attendance" then "dashboard"
        else "all"
      let r := query_student_portal oc now tst username password data_type portal_type
      { response := format_response r.1, agent := ast1, tools := r.2,
        calls := [ToolCall.portal username password data_type portal_type] }
  | ToolName.search_website =>
    let r := search_website oc now tst q
    { response := format_response r.1, agent := ast1, tools := r.2,
      calls := [ToolCall.search q] }

/-- `SimplifiedMCPAgent.__call__` (agent_mcp.py lines 193-339) with the
translator and analytics collaborators absent (their initialisers fail
gracefully) and Ollama unavailable: strip, empty check, exact-greeting check,
context resolution, scope validation, the login sub-machine (username
capture, then password capture which stores the credential triple, resets the
login state and routes the synthesized query `"my results"`), then tool
dispatch. -/
def agent_call (oc : Oracles) (now : Int) (ast : AgentState) (tst : ToolsState)
    (input : String) : AgentTurn :=
  let query := pyStrip input
  if query == "" then
    { response := "Please enter a question.", agent := ast, tools := tst, calls := [] }
  else if isGreeting query then
    { response := "Hello! I\x27m TKRCET College Assistant. How can I help you today? 😊",
      agent := ast, tools := tst, calls := [] }
  else
    let original_query := query
    let rp := resolve_context ast.last_topic query
    let ast1 := { ast with last_topic := rp.2 }
    if !is_college_related rp.1 then
      { response := "I\x27m a TKRCET College Assistant. I can help with college-related questions, but that seems like a math or science problem. Try asking about admissions, courses, facilities, placements, or campus life!",
        agent := ast1, tools := tst, calls := [] }
    else if ast1.waiting_for_credential then
      match ast1.temp_username with
      | none =>
        { response := "Thanks! Now please enter your password:",
          agent := { ast1 with temp_username := some (pyUpper (pyStrip rp.1)) },
          tools := tst, calls := [] }
      | some username =>
        let password := pyStrip rp.1
        let tst1 := { tst with portal_credentials := some (username, password, "autonomous") }
        let ast2 := { ast1 with waiting_for_credential := false, temp_username := none }
        agent_route oc now ast2 tst1 original_query "my results"
    else
      agent_route oc now ast1 tst original_query rp.1

/-- A trivial collaborator assignment used to instantiate the scenario
theorems on concrete inputs. -/
def trivialOracles : Oracles :=
  { noticesPage := Except.ok "notices page"
    placementsPage := Except.ok "placements page"
    sql := fun _ => Except.ok "db rows"
    webSearch := fun _ => Except.ok "search results"
    portalLogin := fun _ _ _ => Except.ok (true, "Login successful")
    portalFetch := fun _ _ => "portal data" }

/-- The empty tools state (fresh caches, no stored credentials). -/
def emptyTools : ToolsState :=
  { cache := { static_cache := [], dynamic_cache := [] }
    portal_credentials := none
    selected_portal := "regular" }

end MCP

/-- Claim C1 counterexample: with the login sub-state active (waiting for a
username), the inbound message `"hi"` is answered as a greeting — it is not
captured as a credential (`temp_username` stays `none`), so the claim that
such a message is "never treated as a greeting" is false on the code: the
greeting check runs before the login-state handling. -/
theorem C1_counterexample :
    (MCP.agent_call MCP.trivialOracles 0 ⟨[], none, true, none⟩ MCP.emptyTools "hi").response
        = "Hello! I\x27m TKRCET College Assistant. How can I help you today? 😊" ∧
    (MCP.agent_call MCP.trivialOracles 0 ⟨[], none, true, none⟩ MCP.emptyTools
        "hi").agent.temp_username = none ∧
    (MCP.agent_call MCP.trivialOracles 0 ⟨[], none, true, none⟩ MCP.emptyTools
        "hi").agent.waiting_for_credential = true ∧
    (MCP.agent_call MCP.trivialOracles 0 ⟨[], none, true, none⟩ MCP.emptyTools "hi").calls
        = [] :=
  ⟨rfl, rfl, rfl, rfl⟩

/-- Claim C1 (amended): while the login sub-state is not Idle, a non-empty
message that is not an exact greeting and passes the scope check is
interpreted as a credential and never reaches the intent router as a fresh
query — on the username turn no tool is called and the (context-resolved,
stripped, upper-cased) message becomes the pending username; on the password
turn the only tool invocation is the portal call, fed the synthesized query,
with the message as password.  (The greeting, context-resolution and scope
checks still run first and can intercept or rewrite the message.) -/
theorem C1_login_preempts_router (oc : MCP.Oracles) (now : Int) (ast : MCP.AgentState)
    (tst : MCP.ToolsState) (input : String)
    (hw : ast.waiting_for_credential = true)
    (hne : (pyStrip input == "") = false)
    (hg : MCP.isGreeting (pyStrip input) = false)
    (hc : MCP.is_college_related (MCP.resolve_context ast.last_topic (pyStrip input)).1
        = true) :
    (ast.temp_username = none →
      (MCP.agent_call oc now ast tst input).agent.temp_username
          = some (pyUpper (pyStrip (MCP.resolve_context ast.last_topic (pyStrip input)).1)) ∧
      (MCP.agent_call oc now ast tst input).calls = [] ∧
      (MCP.agent_call oc now ast tst input).response
          = "Thanks! Now please enter your password:") ∧
    (∀ u, ast.temp_username = some u →
      (MCP.agent_call oc now ast tst input).calls
          = [MCP.ToolCall.portal u
              (pyStrip (MCP.resolve_context ast.last_topic (pyStrip input)).1)
              "results" "autonomous"]) := by
  constructor
  · intro h
    simp +decide [MCP.agent_call, hne, hg, hw, hc, h]
  · intro u h
    have hsel : MCP.select_tool "my results" = MCP.ToolName.query_student_portal := rfl
    have hdt : strContains (pyLower "my results") "result" = true := rfl
    simp +decide [MCP.agent_call, MCP.agent_route, hne, hg, hw, hc, h, hsel, hdt]

/-- Claim C1 witness: the amended theorem at the concrete username turn for
the message `"hunter2"`. -/
theorem C1_witness :
    ((⟨[], none, true, none⟩ : MCP.AgentState).temp_username = none →
      (MCP.agent_call MCP.trivialOracles 0 ⟨[], none, true, none⟩ MCP.emptyTools
          "hunter2").agent.temp_username
          = some (pyUpper (pyStrip (MCP.resolve_context none (pyStrip "hunter2")).1)) ∧
      (MCP.agent_call MCP.trivialOracles 0 ⟨[], none, true, none⟩ MCP.emptyTools
          "hunter2").calls = [] ∧
      (MCP.agent_call MCP.trivialOracles 0 ⟨[], none, true, none⟩ MCP.emptyTools
          "hunter2").response = "Thanks! Now please enter your password:") ∧
    (∀ u, (⟨[], none, true, none⟩ : MCP.AgentState).temp_username = some u →
      (MCP.agent_call MCP.trivialOracles 0 ⟨[], none, true, none⟩ MCP.emptyTools
          "hunter2").calls
          = [MCP.ToolCall.portal u (pyStrip (MCP.resolve_context none (pyStrip "hunter2")).1)
              "results" "autonomous"]) :=
  C1_login_preempts_router MCP.trivialOracles 0 ⟨[], none, true, none⟩ MCP.emptyTools
    "hunter2" rfl rfl rfl rfl

/-- Claim C6 counterexample: `"latest how many students placed"` contains the
aggregate keyword `how many` and the placement keyword `placed`, yet the
router sends it to the notices scraper (the freshness rule fires first), not
to `query_database` — so the universal claim is false as stated. -/
theorem C6_counterexample :
    strContains (pyLower "latest how many students placed") "how many" = true ∧
    strContains (pyLower "latest how many students placed") "placed" = true ∧
    MCP.select_tool "latest how many students placed"
        = MCP.ToolName.scrape_latest_notices ∧
    MCP.select_tool "latest how many students placed" ≠ MCP.ToolName.query_database := by
  refine ⟨rfl, rfl, rfl, ?_⟩
  decide

/-- Claim C6 (amended): a query containing both an aggregate keyword and a
placement keyword routes to `query_database` — and in particular never to
`scrape_placements` — provided no higher-priority rule fires first (no
freshness keyword, no portal keyword, and no roll-number pattern with
result/mark). -/
theorem C6_aggregate_priority (query : String)
    (hsql : containsAny (pyLower query) MCP.sqlKeywords = true)
    (hplace : containsAny (pyLower query) MCP.placementKeywords = true)
    (hfresh : containsAny (pyLower query) MCP.freshKeywords = false)
    (hportal : containsAny (pyLower query) MCP.portalKeywords = false)
    (hroll : (MCP.hasRollNum (pyLower query)
        && (strContains (pyLower query) "result" || strContains (pyLower query) "mark"))
        = false) :
    MCP.select_tool query = MCP.ToolName.query_database := by
  unfold MCP.select_tool
  simp [hsql, hfresh, hportal, hroll]

/-- Claim C6 witness: the amended priority theorem at the concrete query
`"how many students placed"`. -/
theorem C6_witness :
    MCP.select_tool "how many students placed" = MCP.ToolName.query_database :=
  C6_aggregate_priority "how many students placed" rfl rfl rfl rfl rfl

/-- Claim C7: whenever the router selects the static-fact tool and the static
lookup misses (`success = false`), the dispatcher invokes the free-text
website search on the same query within the same turn, and the final response
of the turn is built from the search result, never from the failed static
lookup. -/
theorem C7_static_miss_search_fallback (oc : MCP.Oracles) (now : Int)
    (ast : MCP.AgentState) (tst : MCP.ToolsState) (oq q : String)
    (hsel : MCP.select_tool q = MCP.ToolName.check_static_facts)
    (hmiss : ((MCP.check_static_facts MCP.KNOWLEDGE_BASE tst.cache q).1).success = false) :
    (MCP.agent_route oc now ast tst oq q).calls
        = [MCP.ToolCall.static q, MCP.ToolCall.search q] ∧
    (MCP.agent_route oc now ast tst oq q).response
        = MCP.format_response ((MCP.search_website oc now
            { tst with cache := (MCP.check_static_facts MCP.KNOWLEDGE_BASE tst.cache q).2 }
            q).1) := by
  unfold MCP.agent_route
  rw [hsel]
  simp [hmiss]

/-- Claim C7 witness: the query `"zzz"` routes to the static tool, misses
every static branch, and the turn falls back to the website search. -/
theorem C7_witness :
    (MCP.agent_route MCP.trivialOracles 0 ⟨[], none, false, none⟩ MCP.emptyTools
        "zzz" "zzz").calls = [MCP.ToolCall.static "zzz", MCP.ToolCall.search "zzz"] ∧
    (MCP.agent_route MCP.trivialOracles 0 ⟨[], none, false, none⟩ MCP.emptyTools
        "zzz" "zzz").response
        = MCP.format_response ((MCP.search_website MCP.trivialOracles 0
            { MCP.emptyTools with
                cache := (MCP.check_static_facts MCP.KNOWLEDGE_BASE MCP.emptyTools.cache
                  "zzz").2 } "zzz").1) :=
  C7_static_miss_search_fallback MCP.trivialOracles 0 ⟨[], none, false, none⟩ MCP.emptyTools
    "zzz" "zzz" rfl rfl

/-- Claim C8: two sequential turns `"22K91A05C0"` then `"secret123"` while in
the login flow (waiting for a username): the first turn captures the
upper-cased username and prompts for the password; the second turn issues
exactly one portal call with username `"22K91A05C0"`, password `"secret123"`,
data type `"results"` and the autonomous portal, and afterwards the login
sub-state is Idle (waiting flag cleared, pending username cleared) — for
every collaborator assignment, i.e. regardless of whether the portal call
succeeds, fails or raises, because the state reset happens before the call. -/
theorem C8_login_scenario (oc : MCP.Oracles) (now now2 : Int) (tst : MCP.ToolsState) :
    (MCP.agent_call oc now ⟨[], none, true, none⟩ tst "22K91A05C0").response
        = "Thanks! Now please enter your password:" ∧
    (MCP.agent_call oc now ⟨[], none, true, none⟩ tst "22K91A05C0").agent.temp_username
        = some "22K91A05C0" ∧
    (MCP.agent_call oc now2
        (MCP.agent_call oc now ⟨[], none, true, none⟩ tst "22K91A05C0").agent
        (MCP.agent_call oc now ⟨[], none, true, none⟩ tst "22K91A05C0").tools
        "secret123").calls
        = [MCP.ToolCall.portal "22K91A05C0" "secret123" "results" "autonomous"] ∧
    (MCP.agent_call oc now2
        (MCP.agent_call oc now ⟨[], none, true, none⟩ tst "22K91A05C0").agent
        (MCP.agent_call oc now ⟨[], none, true, none⟩ tst "22K91A05C0").tools
        "secret123").agent.waiting_for_credential = false ∧
    (MCP.agent_call oc now2
        (MCP.agent_call oc now ⟨[], none, true, none⟩ tst "22K91A05C0").agent
        (MCP.agent_call oc now ⟨[], none, true, none⟩ tst "22K91A05C0").tools
        "secret123").agent.temp_username = none :=
  ⟨rfl, rfl, rfl, rfl, rfl⟩

/-- Claim C9: when the portal login fails (the scraper reports bad
credentials, so `query_student_portal` returns `success = false`), the turn
that consumed the password still ends with the login sub-state Idle and the
pending username cleared, the failure is reported with the fixed apology, and
the trace contains exactly one portal call — no automatic retry. -/
theorem C9_login_failure_idle (oc : MCP.Oracles) (now : Int) (ast : MCP.AgentState)
    (tst : MCP.ToolsState) (input : String) (u msg : String)
    (hw : ast.waiting_for_credential = true)
    (hu : ast.temp_username = some u)
    (hne : (pyStrip input == "") = false)
    (hg : MCP.isGreeting (pyStrip input) = false)
    (hc : MCP.is_college_related (MCP.resolve_context ast.last_topic (pyStrip input)).1
        = true)
    (hcache : MCP.get_dynamic tst.cache now
        ("portal_autonomous_" ++ pyUpper u ++ "_" ++ "results") 300 = none)
    (hlogin : oc.portalLogin "autonomous" u
        (pyStrip (MCP.resolve_context ast.last_topic (pyStrip input)).1)
        = Except.ok (false, msg)) :
    (MCP.agent_call oc now ast tst input).response
        = "I couldn\x27t find specific information. Please try rephrasing your question or visit https://tkrcet.ac.in for more details." ∧
    (MCP.agent_call oc now ast tst input).agent.waiting_for_credential = false ∧
    (MCP.agent_call oc now ast tst input).agent.temp_username = none ∧
    (MCP.agent_call oc now ast tst input).calls
        = [MCP.ToolCall.portal u
            (pyStrip (MCP.resolve_context ast.last_topic (pyStrip input)).1)
            "results" "autonomous"] := by
  have hsel : MCP.select_tool "my results" = MCP.ToolName.query_student_portal := rfl
  have hdt : strContains (pyLower "my results") "result" = true := rfl
  refine ⟨?_, ?_, ?_, ?_⟩ <;>
    simp +decide [MCP.agent_call, MCP.agent_route, MCP.query_student_portal,
      MCP.format_response, hne, hg, hw, hc, hu, hsel, hdt, hcache, hlogin]

/-- A collaborator assignment whose portal login always reports bad
credentials. -/
def badLoginOracles : MCP.Oracles :=
  { MCP.trivialOracles with
    portalLogin := fun _ _ _ => Except.ok (false, "Invalid credentials") }

/-- Claim C9 witness: the login-failure theorem at the concrete password turn
`"wrongpass"` with stored pending username `"22K91A05C0"` and a failing
portal. -/
theorem C9_witness :
    (MCP.agent_call badLoginOracles 0 ⟨[], none, true, some "22K91A05C0"⟩ MCP.emptyTools
        "wrongpass").response
        = "I couldn\x27t find specific information. Please try rephrasing your question or visit https://tkrcet.ac.in for more details." ∧
    (MCP.agent_call badLoginOracles 0 ⟨[], none, true, some "22K91A05C0"⟩ MCP.emptyTools
        "wrongpass").agent.waiting_for_credential = false ∧
    (MCP.agent_call badLoginOracles 0 ⟨[], none, true, some "22K91A05C0"⟩ MCP.emptyTools
        "wrongpass").agent.temp_username = none ∧
    (MCP.agent_call badLoginOracles 0 ⟨[], none, true, some "22K91A05C0"⟩ MCP.emptyTools
        "wrongpass").calls
        = [MCP.ToolCall.portal "22K91A05C0"
            (pyStrip (MCP.resolve_context none (pyStrip "wrongpass")).1)
            "results" "autonomous"] :=
  C9_login_failure_idle badLoginOracles 0 ⟨[], none, true, some "22K91A05C0"⟩ MCP.emptyTools
    "wrongpass" "22K91A05C0" "Invalid credentials" rfl rfl rfl rfl rfl rfl rfl

/-- Appending a query to the rolling history and popping the oldest entry
past three always leaves the new query as the last element. -/
theorem getLast_append_trim (l : List String) (a : String) :
    (if 3 < l.length + 1 then (l ++ [a]).tail else l ++ [a]).getLast? = some a := by
  split
  · cases l with
    | nil => simp_all
    | cons x xs => simp [List.getLast?_concat]
  · simp [List.getLast?_concat]

/-- Claim C10: after the password turn of the login flow, the last element of
the rolling conversation history is the raw message the user typed (the
plaintext password), while the tool actually invoked is the portal call for
the synthesized `"my results"` query with that message as password. -/
theorem C10_password_in_history (oc : MCP.Oracles) (now : Int) (ast : MCP.AgentState)
    (tst : MCP.ToolsState) (input : String) (u : String)
    (hw : ast.waiting_for_credential = true)
    (hu : ast.temp_username = some u)
    (hne : (pyStrip input == "") = false)
    (hg : MCP.isGreeting (pyStrip input) = false)
    (hc : MCP.is_college_related (MCP.resolve_context ast.last_topic (pyStrip input)).1
        = true) :
    ((MCP.agent_call oc now ast tst input).agent.conversation_history).getLast?
        = some (pyStrip input) ∧
    (MCP.agent_call oc now ast tst input).calls
        = [MCP.ToolCall.portal u
            (pyStrip (MCP.resolve_context ast.last_topic (pyStrip input)).1)
            "results" "autonomous"] := by
  have hsel : MCP.select_tool "my results" = MCP.ToolName.query_student_portal := rfl
  have hdt : strContains (pyLower "my results") "result" = true := rfl
  constructor
  · simp +decide [MCP.agent_call, MCP.agent_route, hne, hg, hw, hc, hu, hsel, hdt]
    exact getLast_append_trim _ _
  · simp +decide [MCP.agent_call, MCP.agent_route, hne, hg, hw, hc, hu, hsel, hdt]

/-- Claim C10 witness: a password turn with a full (length 3) history — the
oldest entry is popped and the raw password `"opensesame9"` is the last
history element. -/
theorem C10_witness :
    ((MCP.agent_call MCP.trivialOracles 0 ⟨["a", "b", "c"], none, true, some "U"⟩
        MCP.emptyTools "opensesame9").agent.conversation_history).getLast?
        = some (pyStrip "opensesame9") ∧
    (MCP.agent_call MCP.trivialOracles 0 ⟨["a", "b", "c"], none, true, some "U"⟩
        MCP.emptyTools "opensesame9").calls
        = [MCP.ToolCall.portal "U" (pyStrip (MCP.resolve_context none (pyStrip "opensesame9")).1)
            "results" "autonomous"] :=
  C10_password_in_history MCP.trivialOracles 0 ⟨["a", "b", "c"], none, true, some "U"⟩
    MCP.emptyTools "opensesame9" "U" rfl rfl rfl rfl rfl
